import Mathlib

/-!
Verification of the credit-approval backend (api/views.py, api/models.py,
api/tasks.py) against its specification.

The Python code is shallowly embedded over exact rationals: Django `Decimal`
fields and Python floats are both modelled as `ℚ`, machine dates as a
year/month/day triple of integers, and the two object stores as lists.
Python's builtin `round` (banker's rounding, i.e. round-half-to-even) is
modelled exactly by `roundHalfEven`.  Operations that can raise
`ZeroDivisionError` in Python (the EMI formula at degenerate inputs) return
`Option`/`Except` values instead of crashing.
-/

/-- Calendar dates, modelling Python `datetime.date` values as stored in the
`DateField` columns.  Only the ordering and the `year` projection are used by
the code under verification. -/
structure Date where
  year : ℤ
  month : ℤ
  day : ℤ
  deriving DecidableEq

/-- The ordering `a <= b` on dates (Python compares `datetime.date` values
lexicographically by year, month, day). -/
def Date.ble (a b : Date) : Bool :=
  if a.year ≠ b.year then decide (a.year < b.year)
  else if a.month ≠ b.month then decide (a.month < b.month)
  else decide (a.day ≤ b.day)

/-- Modelled from the spec: "end date = start date + tenure months".  The
repository itself never implements this date arithmetic (`CreateLoan.post`
leaves `end_date = date.today()`); this definition exists only to state what
the spec says the stored end date should be.  The day component is kept
unchanged, months are carried into years. -/
def Date.addMonths (d : Date) (n : ℤ) : Date :=
  let m := d.month - 1 + n
  { year := d.year + m.fdiv 12, month := m.emod 12 + 1, day := d.day }

/-- The `Customer` model of api/models.py.  `DecimalField` columns are
modelled as `ℚ`. -/
structure Customer where
  id : ℤ
  first_name : String
  last_name : String
  age : ℤ
  phone_number : ℤ
  monthly_salary : ℚ
  approved_limit : ℚ
  current_debt : ℚ
  deriving DecidableEq

/-- The `Loan` model of api/models.py. -/
structure Loan where
  id : ℤ
  customer_id : ℤ
  loan_amount : ℚ
  tenure : ℤ
  interest_rate : ℚ
  monthly_repayment : ℚ
  emis_paid_on_time : ℤ
  start_date : Date
  end_date : Date
  is_approved : Bool
  deriving DecidableEq

/-- The database backing the two Django models: the customer table, the loan
table, and the two auto-increment counters. -/
structure DB where
  customers : List Customer
  loans : List Loan
  next_customer_id : ℤ
  next_loan_id : ℤ
  deriving DecidableEq

/-- `Customer.objects.get(id=cid)`: `none` models `Customer.DoesNotExist`. -/
def Customer_objects_get (db : DB) (cid : ℤ) : Option Customer :=
  db.customers.find? (fun c => decide (c.id = cid))

/-- `Loan.objects.filter(customer=customer)` for a customer with primary key
`cid`. -/
def Loan_objects_filter (db : DB) (cid : ℤ) : List Loan :=
  db.loans.filter (fun l => decide (l.customer_id = cid))

/-- Python's builtin `round` to an integer: round half to even (banker's
rounding), which is what `round(x)` and the integer part of `round(x, 2)`
perform. -/
def roundHalfEven (q : ℚ) : ℤ :=
  if q - ⌊q⌋ < 1/2 then ⌊q⌋
  else if 1/2 < q - ⌊q⌋ then ⌊q⌋ + 1
  else if Even ⌊q⌋ then ⌊q⌋ else ⌊q⌋ + 1

/-- Python's `round(x, 2)`: round to 2 decimal places, ties to even. -/
def pyRound2 (q : ℚ) : ℚ := (roundHalfEven (100 * q) : ℚ) / 100

/-- `calculate_emi` (api/views.py lines 13-23).  Python raises
`ZeroDivisionError` when `tenure == 0` (either branch) or, more generally,
whenever the denominator of the compounding formula vanishes; those paths are
modelled as `none`.  On every other input the function matches the source:
the zero-rate branch returns `principal / n` with NO rounding, the compound
branch rounds to 2 decimal places. -/
def calculate_emi (principal rate : ℚ) (tenure : ℤ) : Option ℚ :=
  let r := rate / (12 * 100)
  let n := tenure
  if r = 0 then
    if n = 0 then none
    else some (principal / (n : ℚ))
  else if 1 + r = 0 ∧ n < 0 then none
  else if (1 + r) ^ n - 1 = 0 then none
  else some (pyRound2 (principal * r * (1 + r) ^ n / ((1 + r) ^ n - 1)))

/-- The sum of `loan_amount` over approved loans
(`sum([l.loan_amount for l in loans if l.is_approved])`, views.py line 48). -/
def approvedLoanAmountSum (loans : List Loan) : ℚ :=
  ((loans.filter (fun l => l.is_approved)).map (fun l => l.loan_amount)).sum

/-- The sum of `loan_amount` over approved loans whose `end_date` is on or
after today
(`sum([l.loan_amount for l in loans if l.is_approved and l.end_date >= date.today()])`,
views.py line 53). -/
def activeLoanAmountSum (today : Date) (loans : List Loan) : ℚ :=
  ((loans.filter (fun l => l.is_approved && Date.ble today l.end_date)).map
    (fun l => l.loan_amount)).sum

/-- `calculate_credit_score` (api/views.py lines 25-60).  `today` is
`date.today()`; the customer's loans are read from the store exactly as
`Loan.objects.filter(customer=customer)` does. -/
def calculate_credit_score (today : Date) (db : DB) (customer : Customer) : ℤ :=
  let score : ℤ := 0
  let loans := Loan_objects_filter db customer.id
  let total_loans := loans.length
  let paid_on_time_loans :=
    (loans.filter (fun l => decide (l.tenure ≤ l.emis_paid_on_time))).length
  let score := if 0 < paid_on_time_loans then score + 20 else score
  let score := if 0 < total_loans then score + 10 else score
  let current_year_loans :=
    (loans.filter (fun l => decide (l.start_date.year = today.year))).length
  let score := if 0 < current_year_loans then score + 10 else score
  let total_approved_volume := approvedLoanAmountSum loans
  let score := if 100000 < total_approved_volume then score + 10 else score
  let current_debt := activeLoanAmountSum today loans
  if customer.approved_limit < current_debt then 0 else score + 30

/-- The errors the views signal: `Customer.DoesNotExist` / `Loan.DoesNotExist`
produce 404 responses, and a vanishing denominator in `calculate_emi` raises
an unhandled `ZeroDivisionError`. -/
inductive ApiError where
  | customerNotFound
  | loanNotFound
  | zeroDivisionError
  deriving DecidableEq

/-- The JSON body returned by `CheckEligibility.post`. -/
structure EligResponse where
  customer_id : ℤ
  approval : Bool
  interest_rate : ℚ
  corrected_interest_rate : ℚ
  tenure : ℤ
  monthly_installment : ℚ
  deriving DecidableEq

/-- The sum of `monthly_repayment` over the customer's approved loans whose
`end_date` is on or after today (views.py lines 128-129). -/
def currentEmisSum (today : Date) (db : DB) (c : Customer) : ℚ :=
  ((db.loans.filter (fun l =>
      decide (l.customer_id = c.id) && l.is_approved && Date.ble today l.end_date)).map
    (fun l => l.monthly_repayment)).sum

/-- `CheckEligibility.post` (api/views.py lines 91-141).  The request body
fields are the arguments; the pair returns the response together with the
(unchanged) database. -/
def CheckEligibility_post (today : Date) (db : DB) (customer_id : ℤ)
    (loan_amount interest_rate : ℚ) (tenure : ℤ) :
    Except ApiError EligResponse × DB :=
  match Customer_objects_get db customer_id with
  | none => (Except.error ApiError.customerNotFound, db)
  | some customer =>
      let credit_score := calculate_credit_score today db customer
      let approval := false
      let corrected_interest_rate := interest_rate
      let (approval, corrected_interest_rate) :=
        if 50 < credit_score then
          (true, corrected_interest_rate)
        else if credit_score ≤ 50 ∧ 30 < credit_score then
          (true, if interest_rate < 12 then 12 else corrected_interest_rate)
        else if credit_score ≤ 30 ∧ 10 < credit_score then
          (true, if interest_rate < 16 then 16 else corrected_interest_rate)
        else
          (false, corrected_interest_rate)
      match calculate_emi loan_amount corrected_interest_rate tenure with
      | none => (Except.error ApiError.zeroDivisionError, db)
      | some proposed_emi =>
          let current_emis_sum := currentEmisSum today db customer
          let approval :=
            if 0.5 * customer.monthly_salary < current_emis_sum + proposed_emi then
              false
            else approval
          (Except.ok
            { customer_id := customer_id
              approval := approval
              interest_rate := interest_rate
              corrected_interest_rate := corrected_interest_rate
              tenure := tenure
              monthly_installment := proposed_emi }, db)

/-- The JSON body returned by `CreateLoan.post`. -/
structure CreateLoanResponse where
  loan_id : ℤ
  customer_id : ℤ
  loan_approved : Bool
  message : String
  monthly_installment : ℚ
  deriving DecidableEq

/-- `CreateLoan.post` (api/views.py lines 143-178).  The created row takes
`emis_paid_on_time = 0` (model default), `start_date = date.today()`
(`auto_now_add`), and — exactly as the source does — `end_date = date.today()`
as well. -/
def CreateLoan_post (today : Date) (db : DB) (customer_id : ℤ)
    (loan_amount interest_rate : ℚ) (tenure : ℤ) :
    Except ApiError CreateLoanResponse × DB :=
  match Customer_objects_get db customer_id with
  | none => (Except.error ApiError.customerNotFound, db)
  | some customer =>
      match calculate_emi loan_amount interest_rate tenure with
      | none => (Except.error ApiError.zeroDivisionError, db)
      | some emi =>
          let loan : Loan :=
            { id := db.next_loan_id
              customer_id := customer.id
              loan_amount := loan_amount
              tenure := tenure
              interest_rate := interest_rate
              monthly_repayment := emi
              emis_paid_on_time := 0
              start_date := today
              end_date := today
              is_approved := true }
          let db2 := { db with
            loans := db.loans ++ [loan]
            next_loan_id := db.next_loan_id + 1 }
          (Except.ok
            { loan_id := loan.id
              customer_id := customer.id
              loan_approved := true
              message := "Loan approved successfully"
              monthly_installment := emi }, db2)

/-- The approved-limit formula shared by `RegisterCustomer.post`
(views.py lines 70-71) and `ingest_customer_data` (tasks.py lines 16-17):
`round(36 * monthly_income / 100000) * 100000` with Python's `round`. -/
def approvedLimitOf (monthly_income : ℚ) : ℚ :=
  (roundHalfEven (36 * monthly_income / 100000) : ℚ) * 100000

/-- The JSON body returned by `RegisterCustomer.post`. -/
structure RegisterResponse where
  customer_id : ℤ
  name : String
  age : ℤ
  monthly_income : ℚ
  approved_limit : ℚ
  phone_number : ℤ
  deriving DecidableEq

/-- `RegisterCustomer.post` (api/views.py lines 64-89). -/
def RegisterCustomer_post (db : DB) (first_name last_name : String)
    (age : ℤ) (monthly_income : ℚ) (phone_number : ℤ) :
    RegisterResponse × DB :=
  let limit := approvedLimitOf monthly_income
  let customer : Customer :=
    { id := db.next_customer_id
      first_name := first_name
      last_name := last_name
      age := age
      phone_number := phone_number
      monthly_salary := monthly_income
      approved_limit := limit
      current_debt := 0 }
  ({ customer_id := customer.id
     name := first_name ++ " " ++ last_name
     age := customer.age
     monthly_income := customer.monthly_salary
     approved_limit := customer.approved_limit
     phone_number := customer.phone_number },
   { db with
     customers := db.customers ++ [customer]
     next_customer_id := db.next_customer_id + 1 })

/-- One row of `ingest_customer_data` (api/tasks.py lines 13-27): the body of
the per-row loop, which computes the same approved-limit formula and creates
the customer with `current_debt = 0`. -/
def ingest_customer_row (db : DB) (first_name last_name : String)
    (age phone_number : ℤ) (monthly_salary : ℚ) : DB :=
  let limit := approvedLimitOf monthly_salary
  let customer : Customer :=
    { id := db.next_customer_id
      first_name := first_name
      last_name := last_name
      age := age
      phone_number := phone_number
      monthly_salary := monthly_salary
      approved_limit := limit
      current_debt := 0 }
  { db with
    customers := db.customers ++ [customer]
    next_customer_id := db.next_customer_id + 1 }

/-! ### Facts about banker's rounding -/

theorem roundHalfEven_intCast (z : ℤ) : roundHalfEven (z : ℚ) = z := by
  unfold roundHalfEven
  rw [Int.floor_intCast]
  rw [if_pos]
  norm_num

theorem floor_le_roundHalfEven (q : ℚ) : ⌊q⌋ ≤ roundHalfEven q := by
  unfold roundHalfEven
  split_ifs <;> omega

theorem roundHalfEven_le_floor_add_one (q : ℚ) : roundHalfEven q ≤ ⌊q⌋ + 1 := by
  unfold roundHalfEven
  split_ifs <;> omega

theorem roundHalfEven_mono {x y : ℚ} (h : x ≤ y) :
    roundHalfEven x ≤ roundHalfEven y := by
  rcases le_or_lt (⌊x⌋ + 1) ⌊y⌋ with hf | hf
  · exact le_trans (roundHalfEven_le_floor_add_one x)
      (le_trans hf (floor_le_roundHalfEven y))
  · have hfl : ⌊x⌋ = ⌊y⌋ := le_antisymm (Int.floor_le_floor h) (by omega)
    unfold roundHalfEven
    rw [← hfl]
    have hd : x - (⌊x⌋ : ℚ) ≤ y - (⌊x⌋ : ℚ) := by linarith
    split_ifs with h1 h2 h3 h4 h5 h6 h7 h8 <;> try omega
    all_goals linarith

theorem abs_roundHalfEven_sub_le (q : ℚ) : |(roundHalfEven q : ℚ) - q| ≤ 1/2 := by
  have hfl : (⌊q⌋ : ℚ) ≤ q := Int.floor_le q
  have hfu : q < (⌊q⌋ : ℚ) + 1 := Int.lt_floor_add_one q
  unfold roundHalfEven
  split_ifs with h1 h2 h3 <;> rw [abs_le] <;> constructor <;> push_cast <;> linarith

theorem roundHalfEven_eq_of_mem_right {q : ℚ} {z : ℤ} (h1 : (z : ℚ) ≤ q)
    (h2 : q < (z : ℚ) + 1/2) : roundHalfEven q = z := by
  have hfl : ⌊q⌋ = z := by
    rw [Int.floor_eq_iff]
    constructor
    · exact h1
    · linarith
  unfold roundHalfEven
  rw [hfl, if_pos]
  linarith

theorem roundHalfEven_eq_of_mem_left {q : ℚ} {z : ℤ} (h1 : (z : ℚ) - 1/2 < q)
    (h2 : q ≤ (z : ℚ)) : roundHalfEven q = z := by
  rcases eq_or_lt_of_le h2 with rfl | hlt
  · exact roundHalfEven_intCast z
  · have hfl : ⌊q⌋ = z - 1 := by
      rw [Int.floor_eq_iff]
      push_cast
      constructor <;> linarith
    unfold roundHalfEven
    rw [hfl, if_neg, if_pos]
    · omega
    · push_cast
      linarith
    · push_cast
      linarith

theorem roundHalfEven_nearest (q : ℚ) (k : ℤ) :
    |(roundHalfEven q : ℚ) - q| ≤ |(k : ℚ) - q| := by
  rcases le_or_lt (1/2) |(k : ℚ) - q| with hk | hk
  · exact le_trans (abs_roundHalfEven_sub_le q) hk
  · rw [abs_sub_lt_iff] at hk
    rcases le_or_lt (k : ℚ) q with hle | hlt
    · rw [roundHalfEven_eq_of_mem_right hle (by linarith)]
    · rw [roundHalfEven_eq_of_mem_left (by linarith) (le_of_lt hlt)]

theorem roundHalfEven_nonneg {q : ℚ} (h : 0 ≤ q) : 0 ≤ roundHalfEven q :=
  le_trans (Int.floor_nonneg.mpr h) (floor_le_roundHalfEven q)

theorem pyRound2_mono {x y : ℚ} (h : x ≤ y) : pyRound2 x ≤ pyRound2 y := by
  unfold pyRound2
  have : (roundHalfEven (100 * x) : ℚ) ≤ (roundHalfEven (100 * y) : ℚ) := by
    exact_mod_cast roundHalfEven_mono (by linarith)
  linarith

theorem pyRound2_intCast_div (z : ℤ) : pyRound2 ((z : ℚ) / 100) = (z : ℚ) / 100 := by
  unfold pyRound2
  rw [mul_div_cancel₀ (z : ℚ) (by norm_num), roundHalfEven_intCast]

theorem pyRound2_idem (q : ℚ) : pyRound2 (pyRound2 q) = pyRound2 q :=
  pyRound2_intCast_div (roundHalfEven (100 * q))

/-! ### The annuity factor: algebraic structure of the EMI formula -/

/-- The present-value annuity factor `(1+r)⁻¹ + (1+r)⁻² + ⋯ + (1+r)⁻ⁿ`.
The compound-interest EMI equals `principal / annuityFactor r n`, which is
the representation that makes monotonicity in the rate visible. -/
def annuityFactor (r : ℚ) : ℕ → ℚ
  | 0 => 0
  | n + 1 => annuityFactor r n + ((1 + r)⁻¹) ^ (n + 1)

theorem annuityFactor_mul (r : ℚ) (h : 1 + r ≠ 0) (n : ℕ) :
    annuityFactor r n * (r * (1 + r) ^ n) = (1 + r) ^ n - 1 := by
  induction n with
  | zero => simp [annuityFactor]
  | succ n ih =>
    have key : ((1 + r)⁻¹) ^ (n + 1) * (1 + r) ^ (n + 1) = 1 := by
      rw [← mul_pow, inv_mul_cancel₀ h, one_pow]
    have e1 : annuityFactor r (n + 1) * (r * (1 + r) ^ (n + 1))
        = (annuityFactor r n * (r * (1 + r) ^ n)) * (1 + r)
          + r * (((1 + r)⁻¹) ^ (n + 1) * (1 + r) ^ (n + 1)) := by
      simp only [annuityFactor]
      ring
    rw [e1, ih, key]
    ring

theorem annuityFactor_nonneg {r : ℚ} (hr : 0 ≤ r) (n : ℕ) :
    0 ≤ annuityFactor r n := by
  induction n with
  | zero => simp [annuityFactor]
  | succ n ih =>
    have : (0:ℚ) ≤ ((1 + r)⁻¹) ^ (n + 1) :=
      pow_nonneg (inv_nonneg.mpr (by linarith)) _
    simp only [annuityFactor]
    linarith

theorem annuityFactor_pos {r : ℚ} (hr : 0 ≤ r) {n : ℕ} (hn : 1 ≤ n) :
    0 < annuityFactor r n := by
  cases n with
  | zero => omega
  | succ m =>
    have h1 : (0:ℚ) < ((1 + r)⁻¹) ^ (m + 1) :=
      pow_pos (inv_pos.mpr (by linarith)) _
    have h2 := annuityFactor_nonneg hr m
    simp only [annuityFactor]
    linarith

theorem annuityFactor_anti {r1 r2 : ℚ} (h0 : 0 ≤ r1) (h12 : r1 ≤ r2) (n : ℕ) :
    annuityFactor r2 n ≤ annuityFactor r1 n := by
  induction n with
  | zero => simp [annuityFactor]
  | succ n ih =>
    have hinv : (1 + r2)⁻¹ ≤ (1 + r1)⁻¹ := by
      apply inv_le_inv_of_le <;> linarith
    have hterm : ((1 + r2)⁻¹) ^ (n + 1) ≤ ((1 + r1)⁻¹) ^ (n + 1) :=
      pow_le_pow_left (inv_nonneg.mpr (by linarith)) hinv _
    simp only [annuityFactor]
    linarith

theorem emiRaw_eq_div (p r : ℚ) (hr : 0 < r) {n : ℕ} (hn : 1 ≤ n) :
    p * r * (1 + r) ^ n / ((1 + r) ^ n - 1) = p / annuityFactor r n := by
  have h1r : (0:ℚ) < 1 + r := by linarith
  have hpow : 1 < (1 + r) ^ n := one_lt_pow (by linarith) (by omega)
  have hd : (0:ℚ) < (1 + r) ^ n - 1 := by linarith
  have hS := annuityFactor_pos (le_of_lt hr) hn
  rw [div_eq_div_iff (ne_of_gt hd) (ne_of_gt hS), ← annuityFactor_mul r (ne_of_gt h1r) n]
  ring

/-- On a positive rate and positive tenure, `calculate_emi` is the rounded
quotient of the principal by the annuity factor of the monthly rate. -/
theorem calculate_emi_pos_rate (p rate : ℚ) {n : ℤ} (hrate : 0 < rate)
    (hn : 1 ≤ n) :
    calculate_emi p rate n
      = some (pyRound2 (p / annuityFactor (rate / (12 * 100)) n.toNat)) := by
  have hr : 0 < rate / (12 * 100) := by positivity
  have h1r : (0:ℚ) < 1 + rate / (12 * 100) := by linarith
  have hnn : n = (n.toNat : ℤ) := (Int.toNat_of_nonneg (by omega)).symm
  have hpoweq : (1 + rate / (12 * 100)) ^ n
      = (1 + rate / (12 * 100)) ^ (n.toNat : ℕ) := by
    rw [hnn]
    exact zpow_natCast _ _
  have hpow : 1 < (1 + rate / (12 * 100)) ^ (n.toNat : ℕ) :=
    one_lt_pow (by linarith) (by omega)
  have c1 : ¬ (rate / (12 * 100) = 0) := ne_of_gt hr
  have c2 : ¬ (1 + rate / (12 * 100) = 0 ∧ n < 0) := by
    intro h
    omega
  have c3 : ¬ ((1 + rate / (12 * 100)) ^ n - 1 = 0) := by
    rw [hpoweq]
    intro h
    nlinarith
  simp only [calculate_emi]
  rw [if_neg c1, if_neg c2, if_neg c3, hpoweq,
    emiRaw_eq_div p (rate / (12 * 100)) hr (by omega : 1 ≤ n.toNat)]

/-- On a zero rate, `calculate_emi` is the unrounded straight-line quotient. -/
theorem calculate_emi_zero_rate (p : ℚ) {n : ℤ} (hn : n ≠ 0) :
    calculate_emi p 0 n = some (p / (n : ℚ)) := by
  simp only [calculate_emi]
  rw [if_pos (by norm_num), if_neg hn]

/-! ### Characterization of the eligibility decision -/

/-- The approval flag produced by the tier chain of views.py lines 110-121:
all three approving tiers are exactly the scores above 10. -/
def tierApproval (s : ℤ) : Bool := decide (10 < s)

/-- The corrected interest rate produced by the tier chain of views.py
lines 110-121. -/
def tierRate (s : ℤ) (rate : ℚ) : ℚ :=
  if 50 < s then rate
  else if 30 < s ∧ s ≤ 50 then (if rate < 12 then 12 else rate)
  else if 10 < s ∧ s ≤ 30 then (if rate < 16 then 16 else rate)
  else rate

theorem tier_chain_eq (s : ℤ) (rate : ℚ) :
    (if 50 < s then
      (true, rate)
    else if s ≤ 50 ∧ 30 < s then
      (true, if rate < 12 then 12 else rate)
    else if s ≤ 30 ∧ 10 < s then
      (true, if rate < 16 then 16 else rate)
    else
      (false, rate)) = (tierApproval s, tierRate s rate) := by
  unfold tierApproval tierRate
  split_ifs <;> simp_all <;> omega

/-- What `CheckEligibility.post` returns when the customer exists and the EMI
computation does not crash. -/
theorem CheckEligibility_post_ok (today : Date) (db : DB) (customer_id : ℤ)
    (loan_amount interest_rate : ℚ) (tenure : ℤ) (customer : Customer)
    (emi : ℚ) (hc : Customer_objects_get db customer_id = some customer)
    (hemi : calculate_emi loan_amount
      (tierRate (calculate_credit_score today db customer) interest_rate) tenure
      = some emi) :
    CheckEligibility_post today db customer_id loan_amount interest_rate tenure
      = (Except.ok
          { customer_id := customer_id
            approval :=
              if 0.5 * customer.monthly_salary < currentEmisSum today db customer + emi
              then false
              else tierApproval (calculate_credit_score today db customer)
            interest_rate := interest_rate
            corrected_interest_rate :=
              tierRate (calculate_credit_score today db customer) interest_rate
            tenure := tenure
            monthly_installment := emi }, db) := by
  unfold CheckEligibility_post
  rw [hc]
  simp only [tier_chain_eq, hemi]

theorem length_filter_pos_iff {α : Type} (l : List α) (p : α → Bool) :
    0 < (l.filter p).length ↔ ∃ a ∈ l, p a = true := by
  rw [List.length_pos, Ne, List.filter_eq_nil]
  push_neg
  simp

/-- C1: if the sum of `loan_amount` over approved loans still active today
exceeds the customer's `approved_limit`, `calculate_credit_score` returns
exactly 0 no matter which of the four point conditions hold; otherwise it
returns the applicable point sum plus the +30 within-limit bonus. -/
theorem C1_debt_override (today : Date) (db : DB) (customer : Customer) :
    (customer.approved_limit
        < activeLoanAmountSum today (Loan_objects_filter db customer.id) →
      calculate_credit_score today db customer = 0)
    ∧ (activeLoanAmountSum today (Loan_objects_filter db customer.id)
        ≤ customer.approved_limit →
      calculate_credit_score today db customer =
        (if ∃ l ∈ Loan_objects_filter db customer.id,
            l.tenure ≤ l.emis_paid_on_time then 20 else 0)
        + (if Loan_objects_filter db customer.id ≠ [] then 10 else 0)
        + (if ∃ l ∈ Loan_objects_filter db customer.id,
            l.start_date.year = today.year then 10 else 0)
        + (if 100000 < approvedLoanAmountSum (Loan_objects_filter db customer.id)
            then 10 else 0)
        + 30) := by
  have e1 : 0 < ((Loan_objects_filter db customer.id).filter
        (fun l => decide (l.tenure ≤ l.emis_paid_on_time))).length
      ↔ ∃ l ∈ Loan_objects_filter db customer.id,
        l.tenure ≤ l.emis_paid_on_time := by
    rw [length_filter_pos_iff]
    simp
  have e2 : 0 < (Loan_objects_filter db customer.id).length
      ↔ Loan_objects_filter db customer.id ≠ [] := List.length_pos
  have e3 : 0 < ((Loan_objects_filter db customer.id).filter
        (fun l => decide (l.start_date.year = today.year))).length
      ↔ ∃ l ∈ Loan_objects_filter db customer.id,
        l.start_date.year = today.year := by
    rw [length_filter_pos_iff]
    simp
  constructor
  · intro h
    simp only [calculate_credit_score]
    rw [if_pos h]
  · intro h
    simp only [calculate_credit_score]
    rw [if_neg (not_lt.mpr h)]
    simp only [e1, e2, e3]
    by_cases h1 : ∃ l ∈ Loan_objects_filter db customer.id,
        l.tenure ≤ l.emis_paid_on_time <;>
      by_cases h2 : Loan_objects_filter db customer.id ≠ [] <;>
      by_cases h3 : ∃ l ∈ Loan_objects_filter db customer.id,
        l.start_date.year = today.year <;>
      by_cases h4 : 100000
        < approvedLoanAmountSum (Loan_objects_filter db customer.id) <;>
      simp [h1, h2, h3, h4]

/-- A concrete application of `C1_debt_override`: a customer whose single
active approved loan of 200 exceeds the approved limit of 100 scores 0; a
customer with no loans and debt within the limit scores 30. -/
theorem C1_debt_override_witness :
    calculate_credit_score ⟨2026, 10, 12⟩
      { customers := []
        loans := [{ id := 1, customer_id := 7, loan_amount := 200, tenure := 12
                    interest_rate := 10, monthly_repayment := 18
                    emis_paid_on_time := 12
                    start_date := ⟨2026, 1, 1⟩, end_date := ⟨2027, 1, 1⟩
                    is_approved := true }]
        next_customer_id := 8, next_loan_id := 2 }
      { id := 7, first_name := "A", last_name := "B", age := 30
        phone_number := 99, monthly_salary := 1000, approved_limit := 100
        current_debt := 0 } = 0 := by
  apply (C1_debt_override _ _ _).1
  norm_num [activeLoanAmountSum, Loan_objects_filter, List.filter, Date.ble]

/-- C9: the credit score always lies in {0, 30, 40, 50, 60, 70, 80}; in
particular every non-zero score is at least 30. -/
theorem C9_score_range (today : Date) (db : DB) (customer : Customer) :
    calculate_credit_score today db customer
        ∈ ({0, 30, 40, 50, 60, 70, 80} : Set ℤ)
    ∧ (calculate_credit_score today db customer ≠ 0 →
        30 ≤ calculate_credit_score today db customer) := by
  simp only [calculate_credit_score, Set.mem_insert_iff, Set.mem_singleton_iff]
  split_ifs <;> norm_num

/-- A concrete application of `C9_score_range`: the empty-history score 30 is
non-zero, hence at least 30. -/
theorem C9_score_range_witness :
    30 ≤ calculate_credit_score ⟨2026, 10, 12⟩
      { customers := [], loans := [], next_customer_id := 1, next_loan_id := 1 }
      { id := 1, first_name := "A", last_name := "B", age := 30
        phone_number := 99, monthly_salary := 1000, approved_limit := 0
        current_debt := 0 } := by
  apply (C9_score_range _ _ _).2
  norm_num [calculate_credit_score, Loan_objects_filter, activeLoanAmountSum,
    approvedLoanAmountSum, List.filter]

/-- C10: `CheckEligibility.post` is read-only — the database component of its
result is the input database unchanged, on every path (customer missing, EMI
crash, and the normal path through `calculate_credit_score`). -/
theorem C10_check_eligibility_readonly (today : Date) (db : DB)
    (customer_id : ℤ) (loan_amount interest_rate : ℚ) (tenure : ℤ) :
    (CheckEligibility_post today db customer_id loan_amount interest_rate
      tenure).2 = db := by
  unfold CheckEligibility_post
  cases hc : Customer_objects_get db customer_id with
  | none => rfl
  | some customer =>
    simp only [tier_chain_eq]
    cases hemi : calculate_emi loan_amount
        (tierRate (calculate_credit_score today db customer) interest_rate)
        tenure with
    | none => rfl
    | some emi => rfl

theorem pyRound2_eval {q : ℚ} {z : ℤ} (h1 : (z : ℚ) ≤ 100 * q)
    (h2 : 100 * q < (z : ℚ) + 1/2) : pyRound2 q = (z : ℚ) / 100 := by
  unfold pyRound2
  rw [roundHalfEven_eq_of_mem_right h1 h2]

theorem pyRound2_eval_left {q : ℚ} {z : ℤ} (h1 : (z : ℚ) - 1/2 < 100 * q)
    (h2 : 100 * q ≤ (z : ℚ)) : pyRound2 q = (z : ℚ) / 100 := by
  unfold pyRound2
  rw [roundHalfEven_eq_of_mem_left h1 h2]

/-- C2: the eligibility decision follows the tiered policy exactly — above 50
the requested rate is kept, in (30, 50] the rate is floored at 12, in
(10, 30] it is floored at 16, and at or below 10 the request is rejected;
within the approving tiers the final approval is exactly the affordability
condition. -/
theorem C2_tier_policy (today : Date) (db : DB) (customer_id : ℤ)
    (loan_amount interest_rate : ℚ) (tenure : ℤ) (customer : Customer)
    (resp : EligResponse)
    (hc : Customer_objects_get db customer_id = some customer)
    (hr : (CheckEligibility_post today db customer_id loan_amount interest_rate
      tenure).1 = Except.ok resp) :
    (50 < calculate_credit_score today db customer →
      resp.corrected_interest_rate = interest_rate)
    ∧ (30 < calculate_credit_score today db customer
        ∧ calculate_credit_score today db customer ≤ 50 →
      resp.corrected_interest_rate =
        (if interest_rate < 12 then 12 else interest_rate))
    ∧ (10 < calculate_credit_score today db customer
        ∧ calculate_credit_score today db customer ≤ 30 →
      resp.corrected_interest_rate =
        (if interest_rate < 16 then 16 else interest_rate))
    ∧ (calculate_credit_score today db customer ≤ 10 →
      resp.approval = false)
    ∧ (10 < calculate_credit_score today db customer →
      (resp.approval = true ↔
        currentEmisSum today db customer + resp.monthly_installment
          ≤ 0.5 * customer.monthly_salary)) := by
  cases hemi : calculate_emi loan_amount
      (tierRate (calculate_credit_score today db customer) interest_rate)
      tenure with
  | none =>
    unfold CheckEligibility_post at hr
    rw [hc] at hr
    simp only [tier_chain_eq, hemi] at hr
    exact Except.noConfusion hr
  | some emi =>
    rw [CheckEligibility_post_ok today db customer_id loan_amount interest_rate
      tenure customer emi hc hemi] at hr
    simp only [Except.ok.injEq] at hr
    subst hr
    refine ⟨?_, ?_, ?_, ?_, ?_⟩
    · intro h50
      simp only [tierRate, if_pos h50]
    · intro h
      simp only [tierRate]
      rw [if_neg (by omega), if_pos h]
    · intro h
      simp only [tierRate]
      rw [if_neg (by omega), if_neg (by omega), if_pos h]
    · intro h10
      have hna : ¬ (10 < calculate_credit_score today db customer) := by omega
      simp only [tierApproval, decide_eq_false hna]
      split_ifs <;> rfl
    · intro h10
      simp only [tierApproval, decide_eq_true h10]
      split_ifs with hov
      · constructor
        · intro hfalse
          exact absurd hfalse (by decide)
        · intro hle
          exact absurd hle (not_le.mpr hov)
      · constructor
        · intro _
          linarith [not_lt.mp hov]
        · intro _
          rfl

/-- C3: the response's installment is the EMI of the requested loan at the
corrected rate, and whenever the customer's current active repayments plus
that EMI exceed half the monthly salary the returned approval is false; the
theorem needs no assumption on the tier outcome, so the check applies on
every invocation, including when the tier already rejected. -/
theorem C3_affordability (today : Date) (db : DB) (customer_id : ℤ)
    (loan_amount interest_rate : ℚ) (tenure : ℤ) (customer : Customer)
    (resp : EligResponse)
    (hc : Customer_objects_get db customer_id = some customer)
    (hr : (CheckEligibility_post today db customer_id loan_amount interest_rate
      tenure).1 = Except.ok resp) :
    calculate_emi loan_amount resp.corrected_interest_rate tenure
      = some resp.monthly_installment
    ∧ (0.5 * customer.monthly_salary
        < currentEmisSum today db customer + resp.monthly_installment →
      resp.approval = false) := by
  cases hemi : calculate_emi loan_amount
      (tierRate (calculate_credit_score today db customer) interest_rate)
      tenure with
  | none =>
    unfold CheckEligibility_post at hr
    rw [hc] at hr
    simp only [tier_chain_eq, hemi] at hr
    exact Except.noConfusion hr
  | some emi =>
    rw [CheckEligibility_post_ok today db customer_id loan_amount interest_rate
      tenure customer emi hc hemi] at hr
    simp only [Except.ok.injEq] at hr
    subst hr
    refine ⟨hemi, ?_⟩
    intro h
    simp only [if_pos h]

/-! ### Concrete fixtures used by the witnesses -/

def d0 : Date := ⟨2026, 10, 12⟩

def custW2 : Customer :=
  { id := 1, first_name := "Jane", last_name := "Roe", age := 34
    phone_number := 9000000001, monthly_salary := 100000
    approved_limit := 1800000, current_debt := 0 }

def dbW2 : DB :=
  { customers := [custW2], loans := [], next_customer_id := 2, next_loan_id := 1 }

theorem dbW2_get : Customer_objects_get dbW2 1 = some custW2 := by
  simp +decide [Customer_objects_get, dbW2, List.find?]

theorem dbW2_score : calculate_credit_score d0 dbW2 custW2 = 30 := by
  norm_num [calculate_credit_score, Loan_objects_filter, activeLoanAmountSum,
    approvedLoanAmountSum, dbW2, custW2, List.filter]

theorem dbW2_emi :
    calculate_emi 1000 (tierRate (calculate_credit_score d0 dbW2 custW2) 10) 1
      = some (101333/100) := by
  rw [dbW2_score]
  have ht : tierRate 30 10 = 16 := by norm_num [tierRate]
  rw [ht, calculate_emi_pos_rate 1000 16 (by norm_num) (by norm_num)]
  have ha : annuityFactor (16 / (12 * 100)) (Int.toNat 1) = 75/76 := by
    norm_num [annuityFactor, Int.toNat_one]
  rw [ha, pyRound2_eval (z := 101333) (by norm_num) (by norm_num)]
  norm_num

def respW2 : EligResponse :=
  { customer_id := 1, approval := true, interest_rate := 10
    corrected_interest_rate := 16, tenure := 1
    monthly_installment := 101333/100 }

theorem dbW2_response :
    (CheckEligibility_post d0 dbW2 1 1000 10 1).1 = Except.ok respW2 := by
  rw [CheckEligibility_post_ok d0 dbW2 1 1000 10 1 custW2 (101333/100)
    dbW2_get dbW2_emi]
  rw [dbW2_score]
  norm_num [tierRate, tierApproval, currentEmisSum, respW2, dbW2, custW2,
    List.filter]

/-- A concrete application of `C2_tier_policy`: a no-history customer scores
30, so the (10, 30] tier fires and a requested rate of 10 is floored at 16. -/
theorem C2_tier_policy_witness :
    respW2.corrected_interest_rate = (if (10:ℚ) < 16 then 16 else 10) := by
  have h := C2_tier_policy d0 dbW2 1 1000 10 1 custW2 respW2 dbW2_get dbW2_response
  exact h.2.2.1 (by rw [dbW2_score]; norm_num)

def custW3 : Customer :=
  { id := 1, first_name := "Max", last_name := "Poe", age := 41
    phone_number := 9000000002, monthly_salary := 100000
    approved_limit := 1800000, current_debt := 0 }

def loanW3 : Loan :=
  { id := 1, customer_id := 1, loan_amount := 150000, tenure := 12
    interest_rate := 10, monthly_repayment := 80001/2
    emis_paid_on_time := 12, start_date := ⟨2026, 1, 1⟩
    end_date := ⟨2027, 1, 1⟩, is_approved := true }

def dbW3 : DB :=
  { customers := [custW3], loans := [loanW3], next_customer_id := 2
    next_loan_id := 2 }

theorem dbW3_get : Customer_objects_get dbW3 1 = some custW3 := by
  simp +decide [Customer_objects_get, dbW3, List.find?]

theorem dbW3_score : calculate_credit_score d0 dbW3 custW3 = 80 := by
  norm_num [calculate_credit_score, Loan_objects_filter, activeLoanAmountSum,
    approvedLoanAmountSum, dbW3, custW3, loanW3, d0, Date.ble, List.filter]

theorem dbW3_emi :
    calculate_emi 120000 (tierRate (calculate_credit_score d0 dbW3 custW3) 0) 12
      = some 10000 := by
  rw [dbW3_score]
  have ht : tierRate 80 0 = 0 := by norm_num [tierRate]
  rw [ht, calculate_emi_zero_rate 120000 (by norm_num)]
  norm_num

theorem dbW3_emis_sum : currentEmisSum d0 dbW3 custW3 = 80001/2 := by
  norm_num [currentEmisSum, dbW3, custW3, loanW3, d0, Date.ble, List.filter]

def respW3 : EligResponse :=
  { customer_id := 1, approval := false, interest_rate := 0
    corrected_interest_rate := 0, tenure := 12
    monthly_installment := 10000 }

theorem dbW3_response :
    (CheckEligibility_post d0 dbW3 1 120000 0 12).1 = Except.ok respW3 := by
  rw [CheckEligibility_post_ok d0 dbW3 1 120000 0 12 custW3 10000
    dbW3_get dbW3_emi]
  rw [dbW3_score, dbW3_emis_sum]
  norm_num [tierRate, tierApproval, respW3, custW3]

/-- A concrete application of `C3_affordability`: the tier (score 80)
approved, yet active repayments 40000.50 plus the new EMI 10000 exceed half
of the 100000 salary, so approval is forced to false. -/
theorem C3_affordability_witness : respW3.approval = false := by
  have h := C3_affordability d0 dbW3 1 120000 0 12 custW3 respW3
    dbW3_get dbW3_response
  refine h.2 ?_
  rw [dbW3_emis_sum]
  norm_num [custW3, respW3]

/-! ### Reference EMI evaluations -/

theorem emi_100000_10_12 : calculate_emi 100000 10 12 = some (879159/100) := by
  simp only [calculate_emi]
  rw [if_neg (by norm_num), if_neg (by norm_num), if_neg (by norm_num),
    pyRound2_eval_left (z := 879159) (by norm_num) (by norm_num)]
  norm_num

theorem emi_1000_16_1 : calculate_emi 1000 16 1 = some (101333/100) := by
  simp only [calculate_emi]
  rw [if_neg (by norm_num), if_neg (by norm_num), if_neg (by norm_num),
    pyRound2_eval (z := 101333) (by norm_num) (by norm_num)]
  norm_num

theorem emi_2000_16_1 : calculate_emi 2000 16 1 = some (202667/100) := by
  simp only [calculate_emi]
  rw [if_neg (by norm_num), if_neg (by norm_num), if_neg (by norm_num),
    pyRound2_eval_left (z := 202667) (by norm_num) (by norm_num)]
  norm_num

theorem emi_1000_32_1 : calculate_emi 1000 32 1 = some (102667/100) := by
  simp only [calculate_emi]
  rw [if_neg (by norm_num), if_neg (by norm_num), if_neg (by norm_num),
    pyRound2_eval_left (z := 102667) (by norm_num) (by norm_num)]
  norm_num

/-- C4: at a concrete loan creation (customer 1, amount 100000, rate 10,
tenure 12, today 2026-10-12) the persisted loan is approved, carries the EMI
of the supplied terms and starts today — but its `end_date` equals the start
date instead of start date + 12 months, contradicting the source's own
comment `Simple logic for end date: today + tenure months`. -/
def loanC4 : Loan :=
  { id := 1, customer_id := 1, loan_amount := 100000, tenure := 12
    interest_rate := 10, monthly_repayment := 879159/100
    emis_paid_on_time := 0, start_date := d0, end_date := d0
    is_approved := true }

theorem C4_end_date_bug :
    ∃ loan : Loan,
      (CreateLoan_post d0 dbW2 1 100000 10 12).2.loans = dbW2.loans ++ [loan]
      ∧ loan.is_approved = true
      ∧ calculate_emi 100000 10 12 = some loan.monthly_repayment
      ∧ loan.start_date = d0
      ∧ loan.end_date = d0
      ∧ Date.addMonths loan.start_date 12 = ⟨2027, 10, 12⟩
      ∧ loan.end_date ≠ Date.addMonths loan.start_date 12 := by
  have hmain : (CreateLoan_post d0 dbW2 1 100000 10 12).2.loans
      = dbW2.loans ++ [loanC4] := by
    unfold CreateLoan_post
    rw [dbW2_get, emi_100000_10_12]
    rfl
  have h6 : Date.addMonths loanC4.start_date 12 = ⟨2027, 10, 12⟩ := by decide
  have h7 : loanC4.end_date ≠ Date.addMonths loanC4.start_date 12 := by decide
  exact ⟨loanC4, hmain, rfl, emi_100000_10_12, rfl, rfl, h6, h7⟩

/-- C5: both customer-creation paths store
`approved_limit = round(36 * m / 100000) * 100000`, which is non-negative,
a multiple of 100000, and the multiple of 100000 nearest to `36 * m`. -/
theorem C5_approved_limit (db : DB) (fn ln : String) (age phone : ℤ)
    (m : ℚ) (hm : 0 ≤ m) :
    ((RegisterCustomer_post db fn ln age m phone).2.customers
      = db.customers ++
        [{ id := db.next_customer_id, first_name := fn, last_name := ln
           age := age, phone_number := phone, monthly_salary := m
           approved_limit := approvedLimitOf m, current_debt := 0 }])
    ∧ ((ingest_customer_row db fn ln age phone m).customers
      = db.customers ++
        [{ id := db.next_customer_id, first_name := fn, last_name := ln
           age := age, phone_number := phone, monthly_salary := m
           approved_limit := approvedLimitOf m, current_debt := 0 }])
    ∧ approvedLimitOf m = (roundHalfEven (36 * m / 100000) : ℚ) * 100000
    ∧ 0 ≤ approvedLimitOf m
    ∧ (∃ k : ℤ, approvedLimitOf m = (k : ℚ) * 100000)
    ∧ (∀ k : ℤ, |approvedLimitOf m - 36 * m| ≤ |(k : ℚ) * 100000 - 36 * m|) := by
  have hq : (36 * m / 100000) * 100000 = 36 * m :=
    div_mul_cancel₀ _ (by norm_num)
  refine ⟨rfl, rfl, rfl, ?_, ⟨roundHalfEven (36 * m / 100000), rfl⟩, ?_⟩
  · exact mul_nonneg
      (Int.cast_nonneg.mpr (roundHalfEven_nonneg (by positivity))) (by norm_num)
  · intro k
    have key := roundHalfEven_nearest (36 * m / 100000) k
    have e1 : approvedLimitOf m - 36 * m
        = ((roundHalfEven (36 * m / 100000) : ℚ) - 36 * m / 100000) * 100000 := by
      unfold approvedLimitOf
      rw [sub_mul, hq]
    have e2 : (k : ℚ) * 100000 - 36 * m
        = ((k : ℚ) - 36 * m / 100000) * 100000 := by
      rw [sub_mul, hq]
    rw [e1, e2, abs_mul, abs_mul, abs_of_pos (by norm_num : (0:ℚ) < 100000)]
    exact mul_le_mul_of_nonneg_right key (by norm_num)

/-- A concrete application of `C5_approved_limit` at monthly income 50000:
the stored limit is non-negative and a multiple of 100000. -/
theorem C5_approved_limit_witness :
    0 ≤ approvedLimitOf 50000
    ∧ (∃ k : ℤ, approvedLimitOf 50000 = (k : ℚ) * 100000) := by
  have h := C5_approved_limit dbW2 "A" "B" 30 1 50000 (by norm_num)
  exact ⟨h.2.2.2.1, h.2.2.2.2.1⟩

/-- C6 counterexample: at principal 10, rate 0, tenure 3 the function returns
exactly 10/3, which is not a 2-decimal value — the zero-rate branch of the
source returns `principal / n` without rounding. -/
theorem C6_counterexample :
    calculate_emi 10 0 3 = some (10/3) ∧ pyRound2 (10/3 : ℚ) ≠ (10/3 : ℚ) := by
  constructor
  · rw [calculate_emi_zero_rate 10 (by norm_num)]
    norm_num
  · rw [pyRound2_eval (z := 333) (by norm_num) (by norm_num)]
    norm_num

/-- C6 (amended): on a positive rate the returned EMI is rounded to 2 decimal
places (it is a fixed point of `round(·, 2)`), but on a zero rate the result
is the exact, unrounded quotient `principal / tenure`. -/
theorem C6_rounding_amended (p rate : ℚ) (n : ℤ) (hp : 0 < p)
    (hr0 : 0 ≤ rate) (hn : 1 ≤ n) :
    (0 < rate → ∀ v, calculate_emi p rate n = some v → pyRound2 v = v)
    ∧ (rate = 0 → calculate_emi p rate n = some (p / (n : ℚ))) := by
  constructor
  · intro hrp v hv
    rw [calculate_emi_pos_rate p rate hrp hn] at hv
    simp only [Option.some.injEq] at hv
    rw [← hv]
    exact pyRound2_idem _
  · intro h
    subst h
    exact calculate_emi_zero_rate p (by omega)

/-- A concrete application of `C6_rounding_amended`: the rounded EMI 1013.33
is a fixed point of rounding, and the zero-rate EMI of 100 over 4 months is
the exact quotient. -/
theorem C6_rounding_amended_witness :
    pyRound2 (101333/100) = 101333/100
    ∧ calculate_emi 100 0 4 = some (100 / ((4 : ℤ) : ℚ)) := by
  constructor
  · exact (C6_rounding_amended 1000 16 1 (by norm_num) (by norm_num)
      (by norm_num)).1 (by norm_num) (101333/100) emi_1000_16_1
  · exact (C6_rounding_amended 100 0 4 (by norm_num) (le_refl 0)
      (by norm_num)).2 rfl

/-- C7 counterexample: a request with negative loan amount -100 and negative
tenure -5 is not rejected — `CreateLoan.post` computes an EMI on it and
persists an approved loan row carrying those values, and
`CheckEligibility.post` likewise returns a normal decision for it. -/
theorem C7_counterexample :
    (∃ loan : Loan,
      (CreateLoan_post d0 dbW2 1 (-100) 5 (-5)).2.loans = dbW2.loans ++ [loan]
      ∧ loan.tenure = -5 ∧ loan.loan_amount = -100 ∧ loan.is_approved = true)
    ∧ (∃ resp, (CheckEligibility_post d0 dbW2 1 (-100) 5 (-5)).1
        = Except.ok resp) := by
  have hemi : calculate_emi (-100) 5 (-5) = some (1983/100) := by
    simp only [calculate_emi]
    rw [if_neg (by norm_num), if_neg (by norm_num), if_neg (by norm_num),
      pyRound2_eval (z := 1983) (by norm_num) (by norm_num)]
    norm_num
  constructor
  · refine ⟨{ id := 1, customer_id := 1, loan_amount := -100, tenure := -5
              interest_rate := 5, monthly_repayment := 1983/100
              emis_paid_on_time := 0, start_date := d0, end_date := d0
              is_approved := true }, ?_, rfl, rfl, rfl⟩
    unfold CreateLoan_post
    rw [dbW2_get, hemi]
    rfl
  · have hemi16 : calculate_emi (-100)
        (tierRate (calculate_credit_score d0 dbW2 custW2) 5) (-5)
        = some (pyRound2 ((-100) * (16 / (12 * 100)) * (1 + 16 / (12 * 100)) ^ (-5 : ℤ)
            / ((1 + 16 / (12 * 100)) ^ (-5 : ℤ) - 1))) := by
      rw [dbW2_score]
      have ht : tierRate 30 5 = 16 := by norm_num [tierRate]
      rw [ht]
      simp only [calculate_emi]
      rw [if_neg (by norm_num), if_neg (by norm_num), if_neg (by norm_num)]
    exact ⟨_, by rw [CheckEligibility_post_ok d0 dbW2 1 (-100) 5 (-5) custW2 _
      dbW2_get hemi16]⟩

/-- C7 (amended): no request validation exists — for every stored customer,
a negative loan amount together with a negative tenure and a positive rate is
accepted, an EMI is computed on it, and `CreateLoan.post` persists an
approved loan row carrying exactly those values.  (A tenure of 0 instead
raises an unhandled `ZeroDivisionError`; no path signals an InvalidInput
rejection.) -/
theorem C7_no_validation_amended (today : Date) (db : DB) (cid : ℤ)
    (p rate : ℚ) (n : ℤ) (c : Customer)
    (hc : Customer_objects_get db cid = some c)
    (hp : p < 0) (hrp : 0 < rate) (hn : n < 0) :
    ∃ resp loan,
      CreateLoan_post today db cid p rate n
        = (Except.ok resp,
           { db with
             loans := db.loans ++ [loan]
             next_loan_id := db.next_loan_id + 1 })
      ∧ loan.tenure = n ∧ loan.loan_amount = p ∧ loan.is_approved = true := by
  have hr : 0 < rate / (12 * 100) := by positivity
  have h1r : (1:ℚ) < 1 + rate / (12 * 100) := by linarith
  have hlt : (1 + rate / (12 * 100)) ^ n < 1 := zpow_lt_one_of_neg₀ h1r hn
  have c1 : ¬ (rate / (12 * 100) = 0) := ne_of_gt hr
  have c2 : ¬ (1 + rate / (12 * 100) = 0 ∧ n < 0) := by
    intro h
    linarith [h.1]
  have c3 : ¬ ((1 + rate / (12 * 100)) ^ n - 1 = 0) := by
    intro h
    nlinarith
  have hemi : calculate_emi p rate n
      = some (pyRound2 (p * (rate / (12 * 100)) * (1 + rate / (12 * 100)) ^ n
          / ((1 + rate / (12 * 100)) ^ n - 1))) := by
    simp only [calculate_emi]
    rw [if_neg c1, if_neg c2, if_neg c3]
  obtain ⟨em, hemi2⟩ : ∃ em, calculate_emi p rate n = some em := ⟨_, hemi⟩
  refine ⟨⟨db.next_loan_id, c.id, true, "Loan approved successfully", em⟩,
          ⟨db.next_loan_id, c.id, p, n, rate, em, 0, today, today, true⟩,
          ?_, rfl, rfl, rfl⟩
  unfold CreateLoan_post
  rw [hc, hemi2]

/-- A concrete application of `C7_no_validation_amended`: amount -100, rate 5,
tenure -5 against the stored customer 1 is persisted unchecked. -/
theorem C7_no_validation_amended_witness :
    ∃ resp loan,
      CreateLoan_post d0 dbW3 1 (-100) 5 (-5)
        = (Except.ok resp,
           { dbW3 with
             loans := dbW3.loans ++ [loan]
             next_loan_id := dbW3.next_loan_id + 1 })
      ∧ loan.tenure = -5 ∧ loan.loan_amount = -100 ∧ loan.is_approved = true :=
  C7_no_validation_amended d0 dbW3 1 (-100) 5 (-5) custW3 dbW3_get
    (by norm_num) (by norm_num) (by norm_num)

/-- C8 counterexample to rate-monotonicity as stated: with rates 0 ≤ 0.0012
the zero-rate EMI 100/3 ≈ 33.3333 (unrounded) exceeds the rounded EMI 33.33
at the positive rate, because only the compound branch rounds. -/
theorem C8_counterexample :
    (0:ℚ) ≤ 3/2500
    ∧ calculate_emi 100 0 3 = some (100/3)
    ∧ calculate_emi 100 (3/2500) 3 = some (3333/100)
    ∧ ¬ ((100:ℚ)/3 ≤ 3333/100) := by
  refine ⟨by norm_num, ?_, ?_, by norm_num⟩
  · rw [calculate_emi_zero_rate 100 (by norm_num)]
    norm_num
  · simp only [calculate_emi]
    rw [if_neg (by norm_num), if_neg (by norm_num), if_neg (by norm_num),
      pyRound2_eval (z := 3333) (by norm_num) (by norm_num)]
    norm_num

/-- C8 (amended): for positive principal, tenure at least 1 and a fixed
non-negative rate, `calculate_emi` is monotone in the principal; it is
monotone in the rate when both rates are positive (both requests take the
rounded compound branch).  Monotonicity across the zero-rate boundary fails,
see the counterexample. -/
theorem C8_monotonicity_amended :
    (∀ (p1 p2 rate : ℚ) (n : ℤ), 0 < p1 → p1 ≤ p2 → 0 ≤ rate → 1 ≤ n →
      ∀ v1 v2, calculate_emi p1 rate n = some v1 →
        calculate_emi p2 rate n = some v2 → v1 ≤ v2)
    ∧ (∀ (p rate1 rate2 : ℚ) (n : ℤ), 0 < p → 0 < rate1 → rate1 ≤ rate2 → 1 ≤ n →
      ∀ v1 v2, calculate_emi p rate1 n = some v1 →
        calculate_emi p rate2 n = some v2 → v1 ≤ v2) := by
  constructor
  · intro p1 p2 rate n hp1 hp12 hr0 hn v1 v2 h1 h2
    rcases hr0.eq_or_lt with heq | hpos
    · rw [← heq] at h1 h2
      rw [calculate_emi_zero_rate p1 (by omega)] at h1
      rw [calculate_emi_zero_rate p2 (by omega)] at h2
      simp only [Option.some.injEq] at h1 h2
      subst h1
      subst h2
      have hnq : (0:ℚ) < (n:ℚ) := by exact_mod_cast (by omega : (0:ℤ) < n)
      exact (div_le_div_right hnq).mpr hp12
    · rw [calculate_emi_pos_rate p1 rate hpos hn] at h1
      rw [calculate_emi_pos_rate p2 rate hpos hn] at h2
      simp only [Option.some.injEq] at h1 h2
      subst h1
      subst h2
      apply pyRound2_mono
      have hS : 0 < annuityFactor (rate / (12 * 100)) n.toNat :=
        annuityFactor_pos (by positivity) (by omega)
      gcongr
  · intro p rate1 rate2 n hp h1p h12 hn v1 v2 h1 h2
    rw [calculate_emi_pos_rate p rate1 h1p hn] at h1
    rw [calculate_emi_pos_rate p rate2 (by linarith) hn] at h2
    simp only [Option.some.injEq] at h1 h2
    subst h1
    subst h2
    apply pyRound2_mono
    have hr1 : (0:ℚ) ≤ rate1 / (12 * 100) := by positivity
    have hr12 : rate1 / (12 * 100) ≤ rate2 / (12 * 100) := by linarith
    have hanti := annuityFactor_anti hr1 hr12 n.toNat
    have hS2 : 0 < annuityFactor (rate2 / (12 * 100)) n.toNat :=
      annuityFactor_pos (by linarith) (by omega)
    gcongr

/-- A concrete application of `C8_monotonicity_amended`: EMIs at
(1000, 16%, 1) ≤ (2000, 16%, 1) and at (1000, 16%, 1) ≤ (1000, 32%, 1). -/
theorem C8_monotonicity_amended_witness :
    (101333/100 : ℚ) ≤ 202667/100 ∧ (101333/100 : ℚ) ≤ 102667/100 :=
  ⟨C8_monotonicity_amended.1 1000 2000 16 1 (by norm_num) (by norm_num)
      (by norm_num) (by norm_num) _ _ emi_1000_16_1 emi_2000_16_1,
   C8_monotonicity_amended.2 1000 16 32 1 (by norm_num) (by norm_num)
      (by norm_num) (by norm_num) _ _ emi_1000_16_1 emi_1000_32_1⟩
